import Mathlib

/-!
Verification development for the pre-commit coverage gate
(scripts/coverage-gate.py): a shallow embedding of the gate's data model
and operations, followed by theorems about its behaviour.

Modelling conventions:
* Python strings are modelled by Lean `String` / `List Char`; Python's
  whitespace class is modelled by the ASCII whitespace characters (the
  inputs at stake are source paths and TypeScript text).
* Python dicts are modelled by association lists (preserving insertion
  order where the code relies on it) or by `String -> Option _` maps.
* Float percentage arithmetic is modelled by exact rationals.
* Subprocess invocations are modelled by behaviour records (running time
  plus the coverage artifact the process leaves, if any); an uncaught
  Python exception (such as subprocess.TimeoutExpired) is modelled as the
  `Except.error` alternative, which every caller propagates, mirroring the
  absence of try/except in the script.
-/

/-- ASCII whitespace, as matched by Python's regex class backslash-s and
stripped by str.strip (the script never feeds it non-ASCII whitespace). -/
def pyIsSpace (c : Char) : Bool :=
  c == ' ' || c == '\t' || c == '\n' || c == '\r' || c == '\x0b' || c == '\x0c'

/-- Leading-whitespace removal: the regex fragment backslash-s-star. -/
def dropSpaces (l : List Char) : List Char := l.dropWhile pyIsSpace

/-- Python str.strip(): remove leading and trailing whitespace. -/
def pyStrip (l : List Char) : List Char :=
  ((l.dropWhile pyIsSpace).reverse.dropWhile pyIsSpace).reverse

/-- Match a literal string at the head of the input, returning the rest. -/
def expectStr (pat l : List Char) : Option (List Char) :=
  if pat.isPrefixOf l then some (l.drop pat.length) else none

/-- The regex fragment backslash-s-plus: at least one whitespace char. -/
def dropSpaces1 (l : List Char) : Option (List Char) :=
  match l with
  | [] => none
  | c :: rest => if pyIsSpace c then some (dropSpaces rest) else none

def dquoteChar : Char := Char.ofNat 34

def squoteChar : Char := Char.ofNat 39

def isQuote (c : Char) : Bool := c == dquoteChar || c == squoteChar

/-- EMPTY_PATTERN (line 71): caret backslash-s-star dollar — a blank line
(lines produced by splitting on newline contain no newline). -/
def emptyMatch (l : List Char) : Bool := l.all pyIsSpace

/-- COMMENT_PATTERN (line 70): after optional leading whitespace the line
starts with a line comment, a block-comment opener, or a star. -/
def commentMatch (l : List Char) : Bool :=
  (['/', '/'] : List Char).isPrefixOf (dropSpaces l) ||
  (['/', '*'] : List Char).isPrefixOf (dropSpaces l) ||
  (['*'] : List Char).isPrefixOf (dropSpaces l)

/-- The braced alternative of RE_EXPORT_PATTERN: a brace, any characters
other than a closing brace, then the closing brace. -/
def parseBraced (l : List Char) : Option (List Char) :=
  match l with
  | '{' :: rest =>
    match rest.dropWhile (fun c => !(c == '}')) with
    | '}' :: rest2 => some rest2
    | _ => none
  | _ => none

/-- The exported-item alternation of RE_EXPORT_PATTERN: a star, or an
optional "type" keyword (followed by whitespace) and a braced name list.
(When the input starts with "type" the brace-only alternative cannot
apply, so the translation is deterministic.) -/
def parseExportItem (l : List Char) : Option (List Char) :=
  match l with
  | '*' :: rest => some rest
  | _ =>
    if (['t', 'y', 'p', 'e'] : List Char).isPrefixOf l then
      match dropSpaces1 (l.drop 4) with
      | some r => parseBraced r
      | none => none
    else parseBraced l

/-- The module-specifier part of RE_EXPORT_PATTERN: a quote (double or
single), one or more non-quote characters, then a quote. -/
def parseQuoted (l : List Char) : Option (List Char) :=
  match l with
  | [] => none
  | c :: rest =>
    if isQuote c then
      let body := rest.takeWhile (fun d => !(isQuote d))
      match rest.dropWhile (fun d => !(isQuote d)) with
      | d :: rest2 => if body.length == 0 then none else
          if isQuote d then some rest2 else none
      | [] => none
    else none

/-- The optional trailing semicolon of RE_EXPORT_PATTERN. -/
def dropSemi (l : List Char) : List Char :=
  match l with
  | ';' :: rest => rest
  | _ => l

/-- RE_EXPORT_PATTERN after the leading whitespace has been removed:
"export", whitespace, the exported item, whitespace, "from", whitespace,
a quoted module specifier, an optional semicolon, trailing whitespace. -/
def reExportCore (l : List Char) : Bool :=
  match expectStr (['e', 'x', 'p', 'o', 'r', 't'] : List Char) l with
  | none => false
  | some l1 =>
    match dropSpaces1 l1 with
    | none => false
    | some l2 =>
      match parseExportItem l2 with
      | none => false
      | some l3 =>
        match dropSpaces1 l3 with
        | none => false
        | some l4 =>
          match expectStr (['f', 'r', 'o', 'm'] : List Char) l4 with
          | none => false
          | some l5 =>
            match dropSpaces1 l5 with
            | none => false
            | some l6 =>
              match parseQuoted l6 with
              | none => false
              | some l7 => emptyMatch (dropSemi l7)

/-- RE_EXPORT_PATTERN (lines 67-69): a line that is purely a re-export. -/
def matchReExport (l : List Char) : Bool := reExportCore (dropSpaces l)

/-- Python content.split on a single-character separator: "" gives one
empty field, and every separator occurrence starts a new field. -/
def splitOnChar (sep : Char) : List Char → List (List Char)
  | [] => [[]]
  | c :: rest =>
    match splitOnChar sep rest with
    | [] => [[]]
    | grp :: groups => if c == sep then [] :: grp :: groups else (c :: grp) :: groups

/-- The scanning loop of is_barrel (lines 79-89): skip blank and comment
lines and bare block-comment closers, record re-export lines, and fail on
anything else; at the end report whether a re-export was seen. -/
def barrelLoop : List (List Char) → Bool → Bool
  | [], has_export => has_export
  | line :: rest, has_export =>
    if emptyMatch line || commentMatch line then barrelLoop rest has_export
    else if pyStrip line == ['*', '/'] then barrelLoop rest has_export
    else if matchReExport line then barrelLoop rest true
    else false

/-- is_barrel (lines 74-89): is the file content purely re-exports? -/
def is_barrel (content : String) : Bool :=
  barrelLoop (splitOnChar '\n' content.data) false

-- sanity checks mirroring scripts/test-coverage-gate.py
example : is_barrel ("export * from \"./utils\";\n") = true := by decide
example : is_barrel ("export * from \"./utils\"\n") = true := by decide
example : is_barrel ("export \x7b foo \x7d from \"./bar\";\n") = true := by decide
example : is_barrel ("export type \x7b Foo \x7d from \"./bar\";\n") = true := by decide
example : is_barrel ("export * from \"./a\";\nexport * from \"./b\";\n") = true := by decide
example : is_barrel ("// Re-exports\nexport * from \"./utils\";\n") = true := by decide
example : is_barrel ("export const foo = () => 42;\n") = false := by decide
example : is_barrel ("export * from \"./a\";\nexport const foo = 42;\n") = false := by decide
example : is_barrel ("import \x7b x \x7d from \"./y\";\nexport const z = x + 1;\n") = false := by decide
example : is_barrel ("") = false := by decide
example : is_barrel ("// just a comment\n") = false := by decide

-- --- File Classifier ---

def strStarts (s pre : String) : Bool := pre.data.isPrefixOf s.data

def strEnds (s suf : String) : Bool := suf.data.isSuffixOf s.data

def strContains (s pat : String) : Bool :=
  s.data.tails.any (fun t => pat.data.isPrefixOf t)

/-- EXCLUDED_PATTERNS (lines 27-42), each regex translated to the
predicate it denotes on newline-free path strings: a trailing dollar
anchors at the end (suffix), a leading caret at the start (prefix), and an
unanchored pattern of literal characters is a substring test; "tsx?"
means an optional final x. -/
def EXCLUDED_PATTERNS : List (String → Bool) :=
  [ fun p => strEnds p (".config.ts"),
    fun p => strEnds p (".setup.ts"),
    fun p => strEnds p (".d.ts"),
    fun p => strEnds p (".test.ts") || strEnds p (".test.tsx"),
    fun p => strEnds p (".spec.ts") || strEnds p (".spec.tsx"),
    fun p => strContains p ("prisma/generated/"),
    fun p => strContains p ("/generated/"),
    fun p => strStarts p ("scripts/"),
    fun p => strContains p (".next/"),
    fun p => strContains p ("node_modules/"),
    fun p => strContains p ("dist/"),
    fun p => strEnds p ("packages/database/src/index.ts"),
    fun p => strEnds p ("prisma/seed.ts"),
    fun p => strEnds p ("settings-schema.ts") ]

/-- The loop of is_excluded (lines 121-126) over an arbitrary pattern
list: return True on the first matching pattern, False if none match. -/
def is_excludedWith (patterns : List (String → Bool)) (filepath : String) : Bool :=
  patterns.any (fun pat => pat filepath)

/-- is_excluded (lines 121-126): should the file be excluded from
coverage checks? -/
def is_excluded (filepath : String) : Bool :=
  is_excludedWith EXCLUDED_PATTERNS filepath

-- sanity checks mirroring test_is_excluded in scripts/test-coverage-gate.py
example : is_excluded ("vitest.config.ts") = true := by decide
example : is_excluded ("types/global.d.ts") = true := by decide
example : is_excluded ("src/foo.test.ts") = true := by decide
example : is_excluded ("src/foo.spec.tsx") = true := by decide
example : is_excluded ("prisma/generated/client.ts") = true := by decide
example : is_excluded (".next/types/app.ts") = true := by decide
example : is_excluded ("src/utils.ts") = false := by decide
example : is_excluded ("src/app/page.tsx") = false := by decide

/-- get_testable_files (lines 129-131): staged .ts/.tsx files that are
not excluded. -/
def get_testable_files (staged_files : List String) : List String :=
  staged_files.filter (fun f => (strEnds f (".ts") || strEnds f (".tsx")) && !(is_excluded f))

/-- PROJECT_DIRS (lines 46-60): repo-relative file prefix to package
subdirectory. -/
def PROJECT_DIRS : List (String × String) :=
  [ ("apps/web/", "apps/web"),
    ("apps/orchestrator/", "apps/orchestrator"),
    ("packages/ui/", "packages/ui"),
    ("packages/logger/", "packages/logger"),
    ("packages/database/", "packages/database"),
    ("packages/plugin-contract/", "packages/plugin-contract"),
    ("packages/plugins/context/", "packages/plugins/context"),
    ("packages/plugins/discord/", "packages/plugins/discord"),
    ("packages/plugins/web/", "packages/plugins/web"),
    ("packages/plugins/delegation/", "packages/plugins/delegation"),
    ("packages/plugins/activity/", "packages/plugins/activity"),
    ("packages/plugins/metrics/", "packages/plugins/metrics"),
    ("packages/plugins/time/", "packages/plugins/time") ]

/-- The inner loop of group_files_by_package (lines 142-146): the first
routing entry whose prefix the file path starts with, if any. -/
def findRoute (filepath : String) : Option (String × String) :=
  PROJECT_DIRS.find? (fun pr => strStarts filepath pr.1)

/-- Python str slicing filepath[len(pre):]. -/
def strDrop (s : String) (n : Nat) : String := String.mk (s.data.drop n)

/-- dict.setdefault(pkg, []).append(rel): append rel to pkg's group,
creating the group at the end (dict insertion order) if it is new. -/
def insertGroup (groups : List (String × List String)) (pkg rel : String) :
    List (String × List String) :=
  match groups with
  | [] => [(pkg, [rel])]
  | (p, fs) :: rest =>
    if p == pkg then (p, fs ++ [rel]) :: rest
    else (p, fs) :: insertGroup rest pkg rel

/-- group_files_by_package (lines 134-147): group testable files by
package subdirectory, relative to that package; files matching no routing
prefix are skipped. -/
def group_files_by_package (testable_files : List String) : List (String × List String) :=
  testable_files.foldl
    (fun groups filepath =>
      match findRoute filepath with
      | some pr => insertGroup groups pr.2 (strDrop filepath pr.1.length)
      | none => groups)
    []

example : group_files_by_package (["apps/web/src/a.ts", "foo/bar.ts", "apps/web/src/b.ts"])
    = [("apps/web", ["src/a.ts", "src/b.ts"])] := by decide

-- --- Threshold Checker ---

/-- One file's entry in the Istanbul coverage-final.json artifact: the
values of its statement map "s" (statement-id to execution count) and of
its branch map "b" (branch-id to per-arm execution counts). Only the
number of entries and the counter values enter the computation, so the
dict keys are not modelled. -/
structure FileCov where
  s : List Nat
  b : List (List Nat)
  deriving DecidableEq, Repr

/-- The merged coverage artifact: absolute file path to its coverage. -/
abbrev CovMap := String → Option FileCov

/-- COVERAGE_THRESHOLD (line 25): 80 percent, lines and branches. -/
def COVERAGE_THRESHOLD : ℚ := 80

/-- os.path.abspath(os.path.join(a, b)) for the paths the gate builds:
an absolute b wins; otherwise concatenation with a separator (abspath is
the identity on the already-absolute, normalized results involved). -/
def joinPath (a b : String) : String :=
  if strStarts b ("/") then b
  else if strEnds a ("/") then String.mk (a.data ++ b.data)
  else String.mk (a.data ++ ('/' :: b.data))

/-- covered_stmts (line 233): statements whose counter is above zero. -/
def coveredStmts (fc : FileCov) : Nat := fc.s.countP (fun v => decide (0 < v))

/-- line_pct (line 234): covered over total, times 100; 100 when the
file has no statements. -/
def linePct (fc : FileCov) : ℚ :=
  if 0 < fc.s.length then ((coveredStmts fc : ℚ) / (fc.s.length : ℚ)) * 100 else 100

/-- total_branches (line 237): the branch arms, counted over all
branches. -/
def totalBranches (fc : FileCov) : Nat := (fc.b.map List.length).sum

/-- covered_branches (line 238): branch arms whose counter is above
zero. -/
def coveredBranches (fc : FileCov) : Nat :=
  (fc.b.map (fun arms => arms.countP (fun v => decide (0 < v)))).sum

/-- branch_pct (line 239): covered arms over total arms, times 100; 100
when the file has no branch arms. -/
def branchPct (fc : FileCov) : ℚ :=
  if 0 < totalBranches fc then
    ((coveredBranches fc : ℚ) / (totalBranches fc : ℚ)) * 100
  else 100

/-- Python round() on the exact value: nearest integer, ties to even. -/
def pyRound (q : ℚ) : ℤ :=
  if q - (⌊q⌋ : ℚ) < (1 : ℚ) / 2 then ⌊q⌋
  else if (1 : ℚ) / 2 < q - (⌊q⌋ : ℚ) then ⌊q⌋ + 1
  else if ⌊q⌋ % 2 = 0 then ⌊q⌋ else ⌊q⌋ + 1

/-- One entry of the failure list built by check_coverage (lines
222-228 and 245-251). -/
structure Failure where
  file : String
  lines : ℤ
  branches : ℤ
  lines_ok : Bool
  branches_ok : Bool
  deriving DecidableEq, Repr

/-- The loop body of check_coverage (lines 217-251) for one file: a
failure entry with zeros when the file is absent from the coverage map,
otherwise a failure entry (rounded percentages, threshold flags) exactly
when a threshold is missed. -/
def fileFailure (coverage_data : CovMap) (project_dir filepath : String) : Option Failure :=
  match coverage_data (joinPath project_dir filepath) with
  | none => some ⟨filepath, 0, 0, false, false⟩
  | some file_coverage =>
    let line_pct := linePct file_coverage
    let branch_pct := branchPct file_coverage
    let lines_ok := decide (COVERAGE_THRESHOLD ≤ line_pct)
    let branches_ok := decide (COVERAGE_THRESHOLD ≤ branch_pct)
    if !lines_ok || !branches_ok then
      some ⟨filepath, pyRound line_pct, pyRound branch_pct, lines_ok, branches_ok⟩
    else none

/-- check_coverage (lines 213-253): the failure entries for the testable
files, in input order. -/
def check_coverage (coverage_data : CovMap) (testable_files : List String)
    (project_dir : String) : List Failure :=
  testable_files.filterMap (fileFailure coverage_data project_dir)

/-- Evaluation of the loop body when the file is absent from the map. -/
theorem fileFailure_none {cd : CovMap} {pd f : String}
    (h : cd (joinPath pd f) = none) :
    fileFailure cd pd f = some ⟨f, 0, 0, false, false⟩ := by
  rw [fileFailure, h]

/-- Evaluation of the loop body when the file is present: a failure entry
exactly when a percentage is strictly below the threshold. -/
theorem fileFailure_some {cd : CovMap} {pd f : String} {fc : FileCov}
    (h : cd (joinPath pd f) = some fc) :
    fileFailure cd pd f =
      (if linePct fc < 80 ∨ branchPct fc < 80 then
        some ⟨f, pyRound (linePct fc), pyRound (branchPct fc),
          decide (80 ≤ linePct fc), decide (80 ≤ branchPct fc)⟩
      else none) := by
  rw [fileFailure, h]
  by_cases h1 : (80 : ℚ) ≤ linePct fc <;> by_cases h2 : (80 : ℚ) ≤ branchPct fc <;>
    simp [COVERAGE_THRESHOLD, h1, h2, not_le.2, lt_of_not_le, not_le.1,
      not_lt.2, le_of_lt]

-- sanity checks mirroring test_check_coverage in scripts/test-coverage-gate.py
example : check_coverage
    (fun p => if p == ("/fake/project/src/good.ts") then some ⟨[1, 1, 1, 1, 1], [[1, 1], [1, 1]]⟩ else none)
    (["src/good.ts"]) ("/fake/project") = [] := by
  have hl : linePct ⟨[1, 1, 1, 1, 1], [[1, 1], [1, 1]]⟩ = 100 := by
    rw [linePct]
    have : coveredStmts ⟨[1, 1, 1, 1, 1], [[1, 1], [1, 1]]⟩ = 5 := by decide
    rw [this]; norm_num
  have hb : branchPct ⟨[1, 1, 1, 1, 1], [[1, 1], [1, 1]]⟩ = 100 := by
    rw [branchPct]
    have h1 : coveredBranches ⟨[1, 1, 1, 1, 1], [[1, 1], [1, 1]]⟩ = 4 := by decide
    have h2 : totalBranches ⟨[1, 1, 1, 1, 1], [[1, 1], [1, 1]]⟩ = 4 := by decide
    rw [h1, h2]; norm_num
  have hf := @fileFailure_some
    (fun p => if p == ("/fake/project/src/good.ts") then some ⟨[1, 1, 1, 1, 1], [[1, 1], [1, 1]]⟩ else none)
    ("/fake/project") ("src/good.ts") ⟨[1, 1, 1, 1, 1], [[1, 1], [1, 1]]⟩ (by decide)
  rw [hl, hb] at hf
  rw [if_neg (by norm_num)] at hf
  simp only [check_coverage, List.filterMap_cons, List.filterMap_nil, hf]
example : check_coverage
    (fun p => if p == ("/fake/project/src/half.ts") then some ⟨[1, 0, 1, 0], [[1, 1]]⟩ else none)
    (["src/half.ts"]) ("/fake/project")
    = [⟨"src/half.ts", 50, 100, false, true⟩] := by
  have hl : linePct ⟨[1, 0, 1, 0], [[1, 1]]⟩ = 50 := by
    rw [linePct]
    have : coveredStmts ⟨[1, 0, 1, 0], [[1, 1]]⟩ = 2 := by decide
    rw [this]; norm_num
  have hb : branchPct ⟨[1, 0, 1, 0], [[1, 1]]⟩ = 100 := by
    rw [branchPct]
    have h1 : coveredBranches ⟨[1, 0, 1, 0], [[1, 1]]⟩ = 2 := by decide
    have h2 : totalBranches ⟨[1, 0, 1, 0], [[1, 1]]⟩ = 2 := by decide
    rw [h1, h2]; norm_num
  have hf := @fileFailure_some
    (fun p => if p == ("/fake/project/src/half.ts") then some ⟨[1, 0, 1, 0], [[1, 1]]⟩ else none)
    ("/fake/project") ("src/half.ts") ⟨[1, 0, 1, 0], [[1, 1]]⟩ (by decide)
  rw [hl, hb] at hf
  rw [if_pos (by norm_num)] at hf
  simp only [check_coverage, List.filterMap_cons, List.filterMap_nil, hf]
  norm_num [pyRound, Failure.mk.injEq]
example : check_coverage
    (fun p => if p == ("/fake/project/src/branchy.ts") then some ⟨[1, 1, 1, 1, 1], [[1, 0], [0, 0], [1, 0]]⟩ else none)
    (["src/branchy.ts"]) ("/fake/project")
    = [⟨"src/branchy.ts", 100, 33, true, false⟩] := by
  have hl : linePct ⟨[1, 1, 1, 1, 1], [[1, 0], [0, 0], [1, 0]]⟩ = 100 := by
    rw [linePct]
    have : coveredStmts ⟨[1, 1, 1, 1, 1], [[1, 0], [0, 0], [1, 0]]⟩ = 5 := by decide
    rw [this]; norm_num
  have hb : branchPct ⟨[1, 1, 1, 1, 1], [[1, 0], [0, 0], [1, 0]]⟩ = 100 / 3 := by
    rw [branchPct]
    have h1 : coveredBranches ⟨[1, 1, 1, 1, 1], [[1, 0], [0, 0], [1, 0]]⟩ = 2 := by decide
    have h2 : totalBranches ⟨[1, 1, 1, 1, 1], [[1, 0], [0, 0], [1, 0]]⟩ = 6 := by decide
    rw [h1, h2]; norm_num
  have hf := @fileFailure_some
    (fun p => if p == ("/fake/project/src/branchy.ts") then some ⟨[1, 1, 1, 1, 1], [[1, 0], [0, 0], [1, 0]]⟩ else none)
    ("/fake/project") ("src/branchy.ts") ⟨[1, 1, 1, 1, 1], [[1, 0], [0, 0], [1, 0]]⟩ (by decide)
  rw [hl, hb] at hf
  rw [if_pos (by norm_num)] at hf
  simp only [check_coverage, List.filterMap_cons, List.filterMap_nil, hf]
  norm_num [pyRound, Failure.mk.injEq]
example : check_coverage (fun _ => none) (["src/missing.ts"]) ("/fake/project")
    = [⟨"src/missing.ts", 0, 0, false, false⟩] := by decide
example : check_coverage
    (fun p => if p == ("/fake/project/src/simple.ts") then some ⟨[1, 1], []⟩ else none)
    (["src/simple.ts"]) ("/fake/project") = [] := by
  have hl : linePct ⟨[1, 1], []⟩ = 100 := by
    rw [linePct]
    have : coveredStmts ⟨[1, 1], []⟩ = 2 := by decide
    rw [this]; norm_num
  have hb : branchPct ⟨[1, 1], []⟩ = 100 := by rw [branchPct]; norm_num [totalBranches]
  have hf := @fileFailure_some
    (fun p => if p == ("/fake/project/src/simple.ts") then some ⟨[1, 1], []⟩ else none)
    ("/fake/project") ("src/simple.ts") ⟨[1, 1], []⟩ (by decide)
  rw [hl, hb] at hf
  rw [if_neg (by norm_num)] at hf
  simp only [check_coverage, List.filterMap_cons, List.filterMap_nil, hf]

-- --- Coverage Runner ---

/-- The observable behaviour of one test-runner subprocess invocation:
how long the process runs, and the coverage artifact it leaves behind (if
it produces one). The artifact content type is abstract because
run_coverage_for_package only moves it around. -/
structure ProcBehavior (α : Type) where
  duration : Nat
  produces : Option α
  deriving DecidableEq, Repr

/-- subprocess.run with an optional timeout argument, followed by the
artifact check: with a timeout, a process running longer raises
subprocess.TimeoutExpired (the error alternative, uncaught in the
script); without one, the call blocks until the process finishes. The
stale artifact having been deleted beforehand, the artifact observed
after the call is exactly what this invocation produced. -/
def runProc {α : Type} (timeLimit : Option Nat) (b : ProcBehavior α) : Except Unit (Option α) :=
  match timeLimit with
  | some t => if t < b.duration then Except.error () else Except.ok b.produces
  | none => Except.ok b.produces

/-- MAX_RETRIES (line 62). -/
def MAX_RETRIES : Nat := 5

/-- The fallback loop of run_coverage_for_package (lines 173-190):
delete any stale artifact, run the full suite with timeout=120, and stop
at the first attempt whose artifact appears; the list holds the
behaviours of the attempts the loop may make, in order. -/
def attemptFold {α : Type} : List (ProcBehavior α) → Except Unit (Option α)
  | [] => Except.ok none
  | b :: rest =>
    match runProc (some 120) b with
    | Except.error e => Except.error e
    | Except.ok (some cov) => Except.ok (some cov)
    | Except.ok none => attemptFold rest

/-- run_coverage_for_package (lines 150-193): delete the stale artifact,
run vitest related (no timeout argument), return its artifact if it
appeared, and otherwise run the fallback loop for attempts 1 to
MAX_RETRIES; None when no attempt produced the artifact. -/
def run_coverage_for_package {α : Type} (related : ProcBehavior α)
    (fallback : Nat → ProcBehavior α) : Except Unit (Option α) :=
  match runProc none related with
  | Except.error e => Except.error e
  | Except.ok (some cov) => Except.ok (some cov)
  | Except.ok none => attemptFold ((List.range' 1 MAX_RETRIES).map fallback)

/-- dict.update: keys of the new data override the accumulator. -/
def mergeCov (merged data : CovMap) : CovMap :=
  fun k => match data k with
  | some v => some v
  | none => merged k

/-- The loop of run_coverage (lines 203-208): per package in group
insertion order, obtain that package's coverage (the oracle argument
stands for run_coverage_for_package with that package's subprocess
behaviour); a None result aborts with None, an exception propagates. -/
def covFold (oracle : String → List String → Except Unit (Option CovMap)) :
    List (String × List String) → CovMap → Except Unit (Option CovMap)
  | [], merged => Except.ok (some merged)
  | g :: rest, merged =>
    match oracle g.1 g.2 with
    | Except.error e => Except.error e
    | Except.ok none => Except.ok none
    | Except.ok (some data) => covFold oracle rest (mergeCov merged data)

/-- run_coverage (lines 196-210): group the testable files by package
and merge the per-package coverage results; the empty dict when no file
routed to any package. -/
def run_coverage (oracle : String → List String → Except Unit (Option CovMap))
    (testable_files : List String) : Except Unit (Option CovMap) :=
  let groups := group_files_by_package testable_files
  if groups.isEmpty then Except.ok (some (fun _ => none))
  else covFold oracle groups (fun _ => none)

-- --- Orchestrator ---

/-- check_barrels (lines 105-116): the staged files that exist on disk
(the contents argument models the filesystem read) and whose content is a
barrel. -/
def check_barrels (staged_files : List String) (contents : String → Option String)
    (project_dir : String) : List String :=
  staged_files.filterMap (fun filepath =>
    match contents (joinPath project_dir filepath) with
    | none => none
    | some c => if is_barrel c then some filepath else none)

/-- The return points of main (lines 258-307), one constructor per
return statement, carrying the data the corresponding report prints. -/
inductive GateOutcome where
  | noStaged
  | barrelsFound (barrels : List String)
  | barrelOnlyPass
  | noTestable
  | covUnavailable
  | thresholdFail (failures : List Failure)
  | pass
  deriving DecidableEq, Repr

/-- The exit code of each return point of main. -/
def exitCode : GateOutcome → ℤ
  | GateOutcome.noStaged => 0
  | GateOutcome.barrelsFound _ => 1
  | GateOutcome.barrelOnlyPass => 0
  | GateOutcome.noTestable => 0
  | GateOutcome.covUnavailable => 1
  | GateOutcome.thresholdFail _ => 1
  | GateOutcome.pass => 0

/-- main (lines 258-307), starting after the staged-file query: barrel
check, optional stop, testable filter, coverage run, threshold check. An
exception escaping run_coverage (a subprocess timeout) escapes main too:
the script has no try/except. -/
def mainGate (staged_files : List String) (contents : String → Option String)
    (oracle : String → List String → Except Unit (Option CovMap))
    (skip_coverage : Bool) (project_dir : String) : Except Unit GateOutcome :=
  if staged_files.isEmpty then Except.ok GateOutcome.noStaged
  else
    let barrels := check_barrels staged_files contents project_dir
    if !barrels.isEmpty then Except.ok (GateOutcome.barrelsFound barrels)
    else if skip_coverage then Except.ok GateOutcome.barrelOnlyPass
    else
      let testable_files := get_testable_files staged_files
      if testable_files.isEmpty then Except.ok GateOutcome.noTestable
      else
        match run_coverage oracle testable_files with
        | Except.error e => Except.error e
        | Except.ok none => Except.ok GateOutcome.covUnavailable
        | Except.ok (some coverage_data) =>
          let failures := check_coverage coverage_data testable_files project_dir
          if failures.isEmpty then Except.ok GateOutcome.pass
          else Except.ok (GateOutcome.thresholdFail failures)

-- --- Lemmas about the barrel detector ---

/-- Stripping both ends leaves a prefix of stripping the front alone. -/
theorem pyStrip_prefix_dropSpaces (l : List Char) :
    List.IsPrefix (pyStrip l) (dropSpaces l) := by
  unfold pyStrip dropSpaces
  have h1 := List.dropWhile_suffix (l := (l.dropWhile pyIsSpace).reverse) pyIsSpace
  have h2 := List.reverse_prefix.mpr h1
  rwa [List.reverse_reverse] at h2

/-- A line matching the re-export pattern starts, after leading
whitespace, with the letter e of "export". -/
theorem matchReExport_head {l : List Char} (h : matchReExport l = true) :
    ∃ t, dropSpaces l = 'e' :: t := by
  unfold matchReExport reExportCore at h
  cases hexp : expectStr (['e', 'x', 'p', 'o', 'r', 't'] : List Char) (dropSpaces l) with
  | none => rw [hexp] at h; exact absurd h (by simp)
  | some l1 =>
    unfold expectStr at hexp
    by_cases hp : (['e', 'x', 'p', 'o', 'r', 't'] : List Char).isPrefixOf (dropSpaces l)
    · obtain ⟨t, ht⟩ := List.isPrefixOf_iff_prefix.mp hp
      exact ⟨['x', 'p', 'o', 'r', 't'] ++ t, by rw [← ht]; rfl⟩
    · rw [if_neg hp] at hexp; cases hexp

/-- A re-export line is not blank. -/
theorem matchReExport_not_empty {l : List Char} (h : matchReExport l = true) :
    emptyMatch l = false := by
  obtain ⟨t, ht⟩ := matchReExport_head h
  cases hval : emptyMatch l
  · rfl
  · exfalso
    have hnil : dropSpaces l = [] := by
      unfold dropSpaces
      exact List.dropWhile_eq_nil_iff.mpr (fun x hx => List.all_eq_true.mp hval x hx)
    rw [ht] at hnil
    cases hnil

/-- A re-export line is not a comment line. -/
theorem matchReExport_not_comment {l : List Char} (h : matchReExport l = true) :
    commentMatch l = false := by
  obtain ⟨t, ht⟩ := matchReExport_head h
  simp [commentMatch, ht, List.isPrefixOf]

/-- A re-export line does not strip to a bare block-comment closer. -/
theorem matchReExport_not_starslash {l : List Char} (h : matchReExport l = true) :
    pyStrip l ≠ ['*', '/'] := by
  obtain ⟨t, ht⟩ := matchReExport_head h
  intro hstrip
  obtain ⟨u, hu⟩ := pyStrip_prefix_dropSpaces l
  rw [hstrip, ht] at hu
  cases hu

/-- A line stripping to a bare block-comment closer is a comment line
(its first non-blank character is a star). -/
theorem starslash_comment {l : List Char} (h : pyStrip l = ['*', '/']) :
    commentMatch l = true := by
  obtain ⟨u, hu⟩ := pyStrip_prefix_dropSpaces l
  rw [h] at hu
  simp [commentMatch, ← hu, List.isPrefixOf]

/-- Full characterization of the is_barrel scanning loop: it returns
true exactly when every line is blank, a comment, a bare block-comment
closer, or a re-export, and (unless the flag was already set) some line
is a re-export. -/
theorem barrelLoop_eq_true_iff (lines : List (List Char)) :
    ∀ b : Bool, barrelLoop lines b = true ↔
      ((∀ l ∈ lines, emptyMatch l = true ∨ commentMatch l = true ∨
          pyStrip l = ['*', '/'] ∨ matchReExport l = true) ∧
       (b = true ∨ ∃ l ∈ lines, matchReExport l = true)) := by
  induction lines with
  | nil => intro b; simp [barrelLoop]
  | cons line rest ih =>
    intro b
    by_cases h1 : (emptyMatch line || commentMatch line) = true
    · have hline : emptyMatch line = true ∨ commentMatch line = true := by
        rw [Bool.or_eq_true] at h1; exact h1
      have hnotexp : matchReExport line = false := by
        cases hv : matchReExport line
        · rfl
        · rcases hline with he | hc
          · rw [matchReExport_not_empty hv] at he; cases he
          · rw [matchReExport_not_comment hv] at hc; cases hc
      rw [show barrelLoop (line :: rest) b = barrelLoop rest b by
        simp only [barrelLoop]; rw [if_pos h1]]
      rw [ih b]
      simp only [List.mem_cons]
      constructor
      · rintro ⟨hall, hex⟩
        refine ⟨?_, ?_⟩
        · intro l hl
          rcases hl with rfl | hl
          · rcases hline with he | hc
            · exact Or.inl he
            · exact Or.inr (Or.inl hc)
          · exact hall l hl
        · exact hex.imp id (fun ⟨l, hl, hm⟩ => ⟨l, Or.inr hl, hm⟩)
      · rintro ⟨hall, hex⟩
        refine ⟨fun l hl => hall l (Or.inr hl), ?_⟩
        rcases hex with hb | ⟨l, hl, hm⟩
        · exact Or.inl hb
        · rcases hl with rfl | hl
          · rw [hm] at hnotexp; cases hnotexp
          · exact Or.inr ⟨l, hl, hm⟩
    · by_cases h2 : (pyStrip line == ['*', '/']) = true
      · have hstrip : pyStrip line = ['*', '/'] := by
          rwa [beq_iff_eq] at h2
        have hnotexp : matchReExport line = false := by
          cases hv : matchReExport line
          · rfl
          · exact absurd hstrip (matchReExport_not_starslash hv)
        rw [show barrelLoop (line :: rest) b = barrelLoop rest b by
          simp only [barrelLoop]; rw [if_neg h1, if_pos h2]]
        rw [ih b]
        simp only [List.mem_cons]
        constructor
        · rintro ⟨hall, hex⟩
          refine ⟨?_, ?_⟩
          · intro l hl
            rcases hl with rfl | hl
            · exact Or.inr (Or.inr (Or.inl hstrip))
            · exact hall l hl
          · exact hex.imp id (fun ⟨l, hl, hm⟩ => ⟨l, Or.inr hl, hm⟩)
        · rintro ⟨hall, hex⟩
          refine ⟨fun l hl => hall l (Or.inr hl), ?_⟩
          rcases hex with hb | ⟨l, hl, hm⟩
          · exact Or.inl hb
          · rcases hl with rfl | hl
            · rw [hm] at hnotexp; cases hnotexp
            · exact Or.inr ⟨l, hl, hm⟩
      · by_cases h3 : matchReExport line = true
        · rw [show barrelLoop (line :: rest) b = barrelLoop rest true by
            simp only [barrelLoop]; rw [if_neg h1, if_neg h2, if_pos h3]]
          rw [ih true]
          simp only [List.mem_cons]
          constructor
          · rintro ⟨hall, _⟩
            refine ⟨?_, Or.inr ⟨line, Or.inl rfl, h3⟩⟩
            intro l hl
            rcases hl with rfl | hl
            · exact Or.inr (Or.inr (Or.inr h3))
            · exact hall l hl
          · rintro ⟨hall, _⟩
            exact ⟨fun l hl => hall l (Or.inr hl), Or.inl (by trivial)⟩
        · rw [show barrelLoop (line :: rest) b = false by
            simp only [barrelLoop]; rw [if_neg h1, if_neg h2, if_neg h3]]
          rw [Bool.or_eq_true] at h1
          push_neg at h1
          constructor
          · intro hfalse; cases hfalse
          · rintro ⟨hall, _⟩
            rcases hall line (List.mem_cons_self line rest) with he | hc | hs | hm
            · exact absurd he h1.1
            · exact absurd hc h1.2
            · exact absurd (beq_iff_eq.mpr hs) h2
            · exact absurd hm h3

/-- Any single disqualifying line anywhere makes the scan fail. -/
theorem barrelLoop_bad_line (bad : List Char) (hne : emptyMatch bad = false)
    (hnc : commentMatch bad = false) (hnm : matchReExport bad = false) :
    ∀ (pre post : List (List Char)) (b : Bool), barrelLoop (pre ++ bad :: post) b = false := by
  intro pre
  induction pre with
  | nil =>
    intro post b
    have hstrip : (pyStrip bad == ['*', '/']) = false := by
      cases hv : pyStrip bad == ['*', '/']
      · rfl
      · rw [starslash_comment (beq_iff_eq.mp hv)] at hnc; cases hnc
    simp [barrelLoop, hne, hnc, hstrip, hnm]
  | cons p pre ih =>
    intro post b
    simp only [List.cons_append, barrelLoop]
    by_cases c1 : (emptyMatch p || commentMatch p) = true
    · rw [if_pos c1]; exact ih post b
    · rw [if_neg c1]
      by_cases c2 : (pyStrip p == ['*', '/']) = true
      · rw [if_pos c2]; exact ih post b
      · rw [if_neg c2]
        by_cases c3 : matchReExport p = true
        · rw [if_pos c3]; exact ih post true
        · rw [if_neg c3]

/-- C4: barrel detection returns true iff every non-blank, non-comment
line of the input text matches the re-export grammar and at least one
re-export line exists; the empty file and comment/blank-only files give
false; and a single non-blank, non-comment, non-re-export line anywhere
in the line list forces false. -/
theorem C4_is_barrel_characterization (content : String) :
    (is_barrel content = true ↔
      ((∀ l ∈ splitOnChar '\n' content.data,
          emptyMatch l = false → commentMatch l = false → matchReExport l = true) ∧
       (∃ l ∈ splitOnChar '\n' content.data, matchReExport l = true))) ∧
    is_barrel ("") = false ∧
    (∀ content2 : String,
      (∀ l ∈ splitOnChar '\n' content2.data, emptyMatch l = true ∨ commentMatch l = true) →
      is_barrel content2 = false) ∧
    (∀ (pre post : List (List Char)) (bad : List Char) (b : Bool),
      emptyMatch bad = false → commentMatch bad = false → matchReExport bad = false →
      barrelLoop (pre ++ bad :: post) b = false) := by
  refine ⟨?_, by decide, ?_, ?_⟩
  · rw [is_barrel, barrelLoop_eq_true_iff]
    constructor
    · rintro ⟨hall, hex⟩
      refine ⟨?_, ?_⟩
      · intro l hl h1 h2
        rcases hall l hl with he | hc | hs | hm
        · rw [he] at h1; cases h1
        · rw [hc] at h2; cases h2
        · rw [starslash_comment hs] at h2; cases h2
        · exact hm
      · rcases hex with hfalse | hex
        · cases hfalse
        · exact hex
    · rintro ⟨hall, hex⟩
      refine ⟨?_, Or.inr hex⟩
      intro l hl
      cases he : emptyMatch l
      · cases hc : commentMatch l
        · exact Or.inr (Or.inr (Or.inr (hall l hl he hc)))
        · exact Or.inr (Or.inl rfl)
      · exact Or.inl rfl
  · intro c2 hall
    rw [is_barrel]
    cases hv : barrelLoop (splitOnChar '\n' c2.data) false
    · rfl
    · exfalso
      obtain ⟨_, hex⟩ := (barrelLoop_eq_true_iff _ false).mp hv
      rcases hex with hfalse | ⟨l, hl, hm⟩
      · cases hfalse
      · rcases hall l hl with he | hc
        · rw [matchReExport_not_empty hm] at he; cases he
        · rw [matchReExport_not_comment hm] at hc; cases hc
  · intro pre post bad b h1 h2 h3
    exact barrelLoop_bad_line bad h1 h2 h3 pre post b

/-- Witness for C4: a concrete non-blank, non-comment, non-re-export
line makes the scan fail, and a comment-only file is not a barrel. -/
theorem C4_witness :
    emptyMatch (['c', 'o', 'n', 's', 't']) = false ∧
    commentMatch (['c', 'o', 'n', 's', 't']) = false ∧
    matchReExport (['c', 'o', 'n', 's', 't']) = false ∧
    barrelLoop ([['c', 'o', 'n', 's', 't']]) false = false ∧
    is_barrel ("// x") = false := by
  refine ⟨by decide, by decide, by decide, ?_, ?_⟩
  · exact (C4_is_barrel_characterization ("")).2.2.2 [] [] (['c', 'o', 'n', 's', 't']) false
      (by decide) (by decide) (by decide)
  · exact (C4_is_barrel_characterization ("")).2.2.1 ("// x") (by decide)

-- --- Lemmas about the threshold checker ---

/-- A failure entry records the file it was computed for. -/
theorem fileFailure_file {cd : CovMap} {pd a : String} {r : Failure}
    (h : fileFailure cd pd a = some r) : r.file = a := by
  rw [fileFailure] at h
  cases hcd : cd (joinPath pd a) <;> rw [hcd] at h
  · injection h with h'
    rw [← h']
  · dsimp only at h
    split at h
    · injection h with h'
      rw [← h']
    · cases h

/-- Mapping an extraction over a filterMap yields a sublist of the
input whenever the extraction inverts the step function. -/
theorem filterMap_map_sublist {α β : Type} (p : α → Option β) (g : β → α)
    (hg : ∀ a r, p a = some r → g r = a) :
    ∀ l : List α, List.Sublist ((l.filterMap p).map g) l := by
  intro l
  induction l with
  | nil => simp
  | cons a l ih =>
    cases hp : p a
    · simp only [List.filterMap_cons, hp]
      exact List.Sublist.cons a ih
    · simp only [List.filterMap_cons, hp, List.map_cons]
      rw [hg a _ hp]
      exact List.Sublist.cons₂ a ih

/-- C10: every entry of the failure list has a false threshold flag; the
entries follow the input file order, with at most one entry per input
position; and for duplicate-free input the reported files are
duplicate-free. -/
theorem C10_failure_invariants (cd : CovMap) (ts : List String) (pd : String) :
    (∀ fl ∈ check_coverage cd ts pd, fl.lines_ok = false ∨ fl.branches_ok = false) ∧
    List.Sublist ((check_coverage cd ts pd).map Failure.file) ts ∧
    (ts.Nodup → ((check_coverage cd ts pd).map Failure.file).Nodup) := by
  refine ⟨?_, ?_, ?_⟩
  · intro fl hfl
    obtain ⟨a, ha, hp⟩ := List.mem_filterMap.mp hfl
    rw [fileFailure] at hp
    cases hcd : cd (joinPath pd a) <;> rw [hcd] at hp
    · injection hp with h'
      rw [← h']
      exact Or.inl rfl
    · dsimp only at hp
      split at hp
      case isTrue hcond =>
        injection hp with h'
        rw [← h']
        simp only [Bool.or_eq_true, Bool.not_eq_eq_eq_not, Bool.not_true] at hcond
        exact hcond
      case isFalse => cases hp
  · exact filterMap_map_sublist _ Failure.file (fun a r h => fileFailure_file h) ts
  · intro hnd
    exact List.Nodup.sublist
      (filterMap_map_sublist _ Failure.file (fun a r h => fileFailure_file h) ts) hnd

/-- Witness for C10 at a concrete map and file list. -/
theorem C10_witness :
    ((check_coverage (fun _ => none) (["a.ts"]) ("/r")).map Failure.file).Nodup ∧
    List.Sublist ((check_coverage (fun _ => none) (["a.ts"]) ("/r")).map Failure.file) (["a.ts"]) :=
  ⟨(C10_failure_invariants (fun _ => none) (["a.ts"]) ("/r")).2.2 (by decide),
   (C10_failure_invariants (fun _ => none) (["a.ts"]) ("/r")).2.1⟩

/-- C5: a testable file whose path is absent from the coverage map is
always recorded as a failure with zero percentages and both flags false;
it is never skipped. -/
theorem C5_missing_coverage_fails (cd : CovMap) (ts : List String) (pd f : String)
    (hmem : f ∈ ts) (habs : cd (joinPath pd f) = none) :
    (⟨f, 0, 0, false, false⟩ : Failure) ∈ check_coverage cd ts pd := by
  rw [check_coverage]
  exact List.mem_filterMap.mpr ⟨f, hmem, fileFailure_none habs⟩

/-- Witness for C5: a file with no coverage entry fails with zeros. -/
theorem C5_witness :
    (⟨"src/missing.ts", 0, 0, false, false⟩ : Failure) ∈
      check_coverage (fun _ => none) (["src/missing.ts"]) ("/fake/project") :=
  C5_missing_coverage_fails (fun _ => none) (["src/missing.ts"]) ("/fake/project")
    ("src/missing.ts") (by simp) rfl

/-- C3: the line percentage is covered statements over total statements
times 100 (100 for zero statements), the branch percentage is covered
branch arms over total branch arms times 100 (100 for zero arms), a
counter above zero meaning covered; and the file is recorded as a
failure (with percentages rounded only in the report fields) exactly
when one of the unrounded percentages is strictly below 80. -/
theorem C3_threshold_arithmetic (cd : CovMap) (ts : List String) (pd f : String) (fc : FileCov)
    (hmem : f ∈ ts) (hcd : cd (joinPath pd f) = some fc) :
    linePct fc = (if fc.s.length = 0 then (100 : ℚ)
      else ((fc.s.countP (fun v => decide (0 < v)) : ℚ) / (fc.s.length : ℚ)) * 100) ∧
    branchPct fc = (if fc.b.flatten.length = 0 then (100 : ℚ)
      else ((fc.b.flatten.countP (fun v => decide (0 < v)) : ℚ) / (fc.b.flatten.length : ℚ)) * 100) ∧
    (((⟨f, pyRound (linePct fc), pyRound (branchPct fc),
        decide (80 ≤ linePct fc), decide (80 ≤ branchPct fc)⟩ : Failure) ∈ check_coverage cd ts pd)
      ↔ (linePct fc < 80 ∨ branchPct fc < 80)) := by
  refine ⟨?_, ?_, ?_⟩
  · rw [linePct, coveredStmts]
    by_cases h : fc.s.length = 0
    · rw [if_pos h, if_neg (by omega)]
    · rw [if_neg h, if_pos (by omega)]
  · rw [branchPct, totalBranches, coveredBranches]
    rw [List.length_flatten, List.countP_flatten]
    by_cases h : (fc.b.map List.length).sum = 0
    · rw [if_pos h, if_neg (by omega)]
    · rw [if_neg h, if_pos (by omega)]
  · constructor
    · intro hmem2
      obtain ⟨a, ha, hp⟩ := List.mem_filterMap.mp hmem2
      have hfile : f = a := fileFailure_file hp
      rw [← hfile] at hp
      rw [fileFailure_some hcd] at hp
      split at hp
      case isTrue hcond => exact hcond
      case isFalse => cases hp
    · intro hcond
      refine List.mem_filterMap.mpr ⟨f, hmem, ?_⟩
      rw [fileFailure_some hcd, if_pos hcond]

/-- Witness for C3: a file with no statements and no branch arms scores
100 percent on both axes and is not recorded as a failure. -/
theorem C3_witness :
    linePct ⟨[], []⟩ = (if (FileCov.mk [] []).s.length = 0 then (100 : ℚ)
      else (((FileCov.mk [] []).s.countP (fun v => decide (0 < v)) : ℚ) /
        ((FileCov.mk [] []).s.length : ℚ)) * 100) ∧
    branchPct ⟨[], []⟩ = (if (FileCov.mk [] []).b.flatten.length = 0 then (100 : ℚ)
      else (((FileCov.mk [] []).b.flatten.countP (fun v => decide (0 < v)) : ℚ) /
        ((FileCov.mk [] []).b.flatten.length : ℚ)) * 100) ∧
    (((⟨"a.ts", pyRound (linePct ⟨[], []⟩), pyRound (branchPct ⟨[], []⟩),
        decide (80 ≤ linePct ⟨[], []⟩), decide (80 ≤ branchPct ⟨[], []⟩)⟩ : Failure)
        ∈ check_coverage (fun _ => some ⟨[], []⟩) (["a.ts"]) ("/r"))
      ↔ (linePct ⟨[], []⟩ < 80 ∨ branchPct ⟨[], []⟩ < 80)) :=
  C3_threshold_arithmetic (fun _ => some ⟨[], []⟩) (["a.ts"]) ("/r") ("a.ts") ⟨[], []⟩
    (by simp) rfl

-- --- Lemmas about the exclusion test ---

/-- C9: the exclusion test returns true exactly when some pattern in the
list matches, and its outcome is invariant under any permutation of the
pattern list. -/
theorem C9_is_excluded_any (filepath : String) (patterns : List (String → Bool)) :
    (is_excluded filepath = true ↔ ∃ pat ∈ EXCLUDED_PATTERNS, pat filepath = true) ∧
    (is_excludedWith patterns filepath = true ↔ ∃ pat ∈ patterns, pat filepath = true) ∧
    (∀ patterns2, List.Perm patterns patterns2 →
      is_excludedWith patterns filepath = is_excludedWith patterns2 filepath) := by
  refine ⟨?_, ?_, ?_⟩
  · rw [is_excluded, is_excludedWith]
    exact List.any_eq_true
  · rw [is_excludedWith]
    exact List.any_eq_true
  · intro p2 hperm
    rw [is_excludedWith, is_excludedWith]
    have hiff : patterns.any (fun pat => pat filepath) = true ↔
        p2.any (fun pat => pat filepath) = true := by
      rw [List.any_eq_true, List.any_eq_true]
      constructor
      · rintro ⟨x, hx, hpx⟩
        exact ⟨x, hperm.mem_iff.mp hx, hpx⟩
      · rintro ⟨x, hx, hpx⟩
        exact ⟨x, hperm.mem_iff.mpr hx, hpx⟩
    cases h1 : patterns.any (fun pat => pat filepath) <;>
      cases h2 : p2.any (fun pat => pat filepath) <;>
      first
        | rfl
        | (exfalso; rw [h1, h2] at hiff; simp at hiff)

/-- Witness for C9: the exclusion characterization at a test path, and
permutation invariance on a concrete two-pattern list. -/
theorem C9_witness :
    (is_excluded ("src/foo.test.ts") = true ↔
      ∃ pat ∈ EXCLUDED_PATTERNS, pat ("src/foo.test.ts") = true) ∧
    is_excludedWith [fun p => strEnds p (".d.ts"), fun p => strStarts p ("scripts/")] ("x")
      = is_excludedWith [fun p => strStarts p ("scripts/"), fun p => strEnds p (".d.ts")] ("x") :=
  ⟨(C9_is_excluded_any ("src/foo.test.ts") []).1,
   (C9_is_excluded_any ("x")
      [fun p => strEnds p (".d.ts"), fun p => strStarts p ("scripts/")]).2.2
      [fun p => strStarts p ("scripts/"), fun p => strEnds p (".d.ts")]
      (List.Perm.swap (fun p => strStarts p ("scripts/")) (fun p => strEnds p (".d.ts")) [])⟩

-- --- Lemmas about the coverage runner ---

/-- A fallback attempt that exceeds the 120-second timeout raises, and
the exception aborts the whole loop. -/
theorem attemptFold_cons_timeout {α : Type} {b : ProcBehavior α} (l : List (ProcBehavior α))
    (h : 120 < b.duration) : attemptFold (b :: l) = Except.error () := by
  simp [attemptFold, runProc, h]

/-- A fallback attempt that finishes in time without an artifact hands
over to the remaining attempts. -/
theorem attemptFold_cons_none {α : Type} {b : ProcBehavior α} (l : List (ProcBehavior α))
    (hd : b.duration ≤ 120) (hp : b.produces = none) :
    attemptFold (b :: l) = attemptFold l := by
  have h : ¬ (120 < b.duration) := by omega
  simp [attemptFold, runProc, h, hp]

/-- A fallback attempt that produces the artifact short-circuits. -/
theorem attemptFold_cons_some {α : Type} {b : ProcBehavior α} {c : α} (l : List (ProcBehavior α))
    (hd : b.duration ≤ 120) (hp : b.produces = some c) :
    attemptFold (b :: l) = Except.ok (some c) := by
  have h : ¬ (120 < b.duration) := by omega
  simp [attemptFold, runProc, h, hp]

/-- When the related run produces the artifact it is returned at once. -/
theorem rcp_related_some {α : Type} {related : ProcBehavior α} {c : α}
    (fb : Nat → ProcBehavior α) (h : related.produces = some c) :
    run_coverage_for_package related fb = Except.ok (some c) := by
  simp [run_coverage_for_package, runProc, h]

/-- When the related run leaves no artifact, control reaches the
fallback loop over attempts 1 to MAX_RETRIES. -/
theorem rcp_related_none {α : Type} {related : ProcBehavior α}
    (fb : Nat → ProcBehavior α) (h : related.produces = none) :
    run_coverage_for_package related fb = attemptFold ((List.range' 1 MAX_RETRIES).map fb) := by
  simp [run_coverage_for_package, runProc, h]

/-- C6: MAX_RETRIES is 5; an artifact from the related run returns at
once; when the related run produced nothing, the first in-time fallback
attempt that produces the artifact ends the loop with its contents, all
attempts producing nothing yields None, and the result consults only the
behaviours of attempts 1 through MAX_RETRIES. -/
theorem C6_retry_bounded {α : Type} (related : ProcBehavior α) (fb : Nat → ProcBehavior α) :
    MAX_RETRIES = 5 ∧
    (∀ c : α, related.produces = some c →
      run_coverage_for_package related fb = Except.ok (some c)) ∧
    (related.produces = none →
      ∀ (i : ℕ) (c : α), 1 ≤ i → i ≤ MAX_RETRIES →
        (∀ j, 1 ≤ j → j < i → (fb j).duration ≤ 120 ∧ (fb j).produces = none) →
        (fb i).duration ≤ 120 → (fb i).produces = some c →
        run_coverage_for_package related fb = Except.ok (some c)) ∧
    (related.produces = none →
      (∀ i, 1 ≤ i → i ≤ MAX_RETRIES → (fb i).duration ≤ 120 ∧ (fb i).produces = none) →
      run_coverage_for_package related fb = Except.ok none) ∧
    (∀ fb2 : Nat → ProcBehavior α, (∀ i, 1 ≤ i → i ≤ MAX_RETRIES → fb i = fb2 i) →
      run_coverage_for_package related fb = run_coverage_for_package related fb2) := by
  refine ⟨rfl, ?_, ?_, ?_, ?_⟩
  · intro c h
    exact rcp_related_some fb h
  · intro hrel i c h1 h5 hprev hdur hprod
    rw [rcp_related_none fb hrel]
    rw [show (List.range' 1 MAX_RETRIES).map fb = [fb 1, fb 2, fb 3, fb 4, fb 5] from rfl]
    have h5' : i ≤ 5 := h5
    interval_cases i
    · rw [attemptFold_cons_some _ hdur hprod]
    · obtain ⟨d1, p1⟩ := hprev 1 (by omega) (by omega)
      rw [attemptFold_cons_none _ d1 p1, attemptFold_cons_some _ hdur hprod]
    · obtain ⟨d1, p1⟩ := hprev 1 (by omega) (by omega)
      obtain ⟨d2, p2⟩ := hprev 2 (by omega) (by omega)
      rw [attemptFold_cons_none _ d1 p1, attemptFold_cons_none _ d2 p2,
        attemptFold_cons_some _ hdur hprod]
    · obtain ⟨d1, p1⟩ := hprev 1 (by omega) (by omega)
      obtain ⟨d2, p2⟩ := hprev 2 (by omega) (by omega)
      obtain ⟨d3, p3⟩ := hprev 3 (by omega) (by omega)
      rw [attemptFold_cons_none _ d1 p1, attemptFold_cons_none _ d2 p2,
        attemptFold_cons_none _ d3 p3, attemptFold_cons_some _ hdur hprod]
    · obtain ⟨d1, p1⟩ := hprev 1 (by omega) (by omega)
      obtain ⟨d2, p2⟩ := hprev 2 (by omega) (by omega)
      obtain ⟨d3, p3⟩ := hprev 3 (by omega) (by omega)
      obtain ⟨d4, p4⟩ := hprev 4 (by omega) (by omega)
      rw [attemptFold_cons_none _ d1 p1, attemptFold_cons_none _ d2 p2,
        attemptFold_cons_none _ d3 p3, attemptFold_cons_none _ d4 p4,
        attemptFold_cons_some _ hdur hprod]
  · intro hrel hall
    rw [rcp_related_none fb hrel]
    rw [show (List.range' 1 MAX_RETRIES).map fb = [fb 1, fb 2, fb 3, fb 4, fb 5] from rfl]
    obtain ⟨d1, p1⟩ := hall 1 (by omega) (by decide)
    obtain ⟨d2, p2⟩ := hall 2 (by omega) (by decide)
    obtain ⟨d3, p3⟩ := hall 3 (by omega) (by decide)
    obtain ⟨d4, p4⟩ := hall 4 (by omega) (by decide)
    obtain ⟨d5, p5⟩ := hall 5 (by omega) (by decide)
    rw [attemptFold_cons_none _ d1 p1, attemptFold_cons_none _ d2 p2,
      attemptFold_cons_none _ d3 p3, attemptFold_cons_none _ d4 p4,
      attemptFold_cons_none _ d5 p5]
    rfl
  · intro fb2 hagree
    have h1 := hagree 1 (by omega) (by decide)
    have h2 := hagree 2 (by omega) (by decide)
    have h3 := hagree 3 (by omega) (by decide)
    have h4 := hagree 4 (by omega) (by decide)
    have h5 := hagree 5 (by omega) (by decide)
    cases hrel : related.produces with
    | some c => rw [rcp_related_some fb hrel, rcp_related_some fb2 hrel]
    | none =>
      rw [rcp_related_none fb hrel, rcp_related_none fb2 hrel]
      have e : (List.range' 1 MAX_RETRIES).map fb = (List.range' 1 MAX_RETRIES).map fb2 := by
        show [fb 1, fb 2, fb 3, fb 4, fb 5] = [fb2 1, fb2 2, fb2 3, fb2 4, fb2 5]
        rw [h1, h2, h3, h4, h5]
      rw [e]

/-- Witness for C6: the second fallback attempt producing the artifact
short-circuits with its contents, and five artifact-less attempts give
None. -/
theorem C6_witness :
    run_coverage_for_package (α := ℕ) ⟨0, none⟩
      (fun j => if j == 1 then ⟨0, none⟩ else ⟨0, some 9⟩) = Except.ok (some 9) ∧
    run_coverage_for_package (α := ℕ) ⟨0, none⟩ (fun _ => ⟨0, none⟩) = Except.ok none := by
  constructor
  · refine (C6_retry_bounded ⟨0, none⟩ _).2.2.1 rfl 2 9 (by omega) (by decide) ?_ (by decide) (by decide)
    intro j hj1 hj2
    have : j = 1 := by omega
    rw [this]
    exact ⟨by decide, by decide⟩
  · exact (C6_retry_bounded ⟨0, none⟩ _).2.2.2.1 rfl (fun i hi1 hi5 => ⟨by decide, rfl⟩)

/-- Counterexample for C2: the first fallback attempt running for 200
seconds raises subprocess.TimeoutExpired, which aborts the retry loop as
an exception (the error result) instead of being handled like the
artifact-not-produced outcome (which yields ok none); and the related
run, invoked without any timeout argument, returns normally after an
arbitrarily long run. -/
theorem C2_counterexample :
    run_coverage_for_package (α := ℕ) ⟨1000000, none⟩ (fun _ => ⟨200, some 7⟩)
      = Except.error () ∧
    run_coverage_for_package (α := ℕ) ⟨1000000, none⟩ (fun _ => ⟨0, none⟩)
      = Except.ok none ∧
    run_coverage_for_package (α := ℕ) ⟨1000000000, some 7⟩ (fun _ => ⟨200, some 7⟩)
      = Except.ok (some 7) :=
  ⟨rfl, rfl, rfl⟩

-- --- Lemmas about the orchestrator ---

/-- With staged files present, no barrels, and coverage not skipped,
main reaches the coverage phase and its outcome is decided by the
run_coverage result. -/
theorem mainGate_run (staged : List String) (contents : String → Option String)
    (oracle : String → List String → Except Unit (Option CovMap)) (pd : String)
    (hb : check_barrels staged contents pd = []) (hne : staged ≠ [])
    (hts : get_testable_files staged ≠ []) :
    mainGate staged contents oracle false pd =
      (match run_coverage oracle (get_testable_files staged) with
       | Except.error e => Except.error e
       | Except.ok none => Except.ok GateOutcome.covUnavailable
       | Except.ok (some cov) =>
         if (check_coverage cov (get_testable_files staged) pd).isEmpty then
           Except.ok GateOutcome.pass
         else Except.ok (GateOutcome.thresholdFail
           (check_coverage cov (get_testable_files staged) pd))) := by
  have h1 : staged.isEmpty = false := by
    cases staged
    · exact absurd rfl hne
    · rfl
  have h2 : (get_testable_files staged).isEmpty = false := by
    cases h : get_testable_files staged
    · exact absurd h hts
    · rfl
  simp only [mainGate, h1, hb, h2]
  simp

/-- A run_coverage loop in which every package finishes without an
exception and some package yields no data reports None overall. -/
theorem covFold_ok_none (oracle : String → List String → Except Unit (Option CovMap)) :
    ∀ (gs : List (String × List String)) (m : CovMap),
      (∀ g ∈ gs, oracle g.1 g.2 ≠ Except.error ()) →
      (∃ g ∈ gs, oracle g.1 g.2 = Except.ok none) →
      covFold oracle gs m = Except.ok none := by
  intro gs
  induction gs with
  | nil =>
    intro m _ hex
    simp at hex
  | cons g rest ih =>
    intro m hne hex
    cases horacle : oracle g.1 g.2 with
    | error e =>
      cases e
      exact absurd horacle (hne g (List.mem_cons_self g rest))
    | ok o =>
      cases o with
      | none => simp [covFold, horacle]
      | some d =>
        rw [show covFold oracle (g :: rest) m = covFold oracle rest (mergeCov m d) by
          simp [covFold, horacle]]
        apply ih
        · intro g2 hg2
          exact hne g2 (List.mem_cons_of_mem g hg2)
        · rcases hex with ⟨g2, hg2, hok⟩
          rcases List.mem_cons.mp hg2 with rfl | hg2
          · rw [horacle] at hok
            simp at hok
          · exact ⟨g2, hg2, hok⟩

/-- run_coverage is None when some package yields None and none raises. -/
theorem run_coverage_unavailable (oracle : String → List String → Except Unit (Option CovMap))
    (ts : List String)
    (hne : ∀ g ∈ group_files_by_package ts, oracle g.1 g.2 ≠ Except.error ())
    (hex : ∃ g ∈ group_files_by_package ts, oracle g.1 g.2 = Except.ok none) :
    run_coverage oracle ts = Except.ok none := by
  have hemp : (group_files_by_package ts).isEmpty = false := by
    rcases hex with ⟨g, hg, _⟩
    cases h : group_files_by_package ts
    · rw [h] at hg
      cases hg
    · rfl
  simp only [run_coverage, hemp]
  simp only [Bool.false_eq_true, if_false]
  exact covFold_ok_none oracle _ _ hne hex

/-- An exception from the first package's run escapes run_coverage. -/
theorem run_coverage_error_head (oracle : String → List String → Except Unit (Option CovMap))
    (ts : List String) (pkg : String) (fs : List String) (rest : List (String × List String))
    (hg : group_files_by_package ts = (pkg, fs) :: rest)
    (h : oracle pkg fs = Except.error ()) :
    run_coverage oracle ts = Except.error () := by
  simp only [run_coverage, hg]
  simp [covFold, h]

/-- C7: when every package run returns without an exception and some
package yields no coverage data, the merged result is None (no partial
data), and the gate takes the covUnavailable return (the branch that
prints the could-not-generate-coverage diagnostic and no per-file
report), exiting 1. -/
theorem C7_unavailable_fail_closed (staged : List String) (contents : String → Option String)
    (oracle : String → List String → Except Unit (Option CovMap)) (pd : String)
    (hb : check_barrels staged contents pd = []) (hne : staged ≠ [])
    (hts : get_testable_files staged ≠ [])
    (hnoerr : ∀ g ∈ group_files_by_package (get_testable_files staged),
      oracle g.1 g.2 ≠ Except.error ())
    (hsome : ∃ g ∈ group_files_by_package (get_testable_files staged),
      oracle g.1 g.2 = Except.ok none) :
    run_coverage oracle (get_testable_files staged) = Except.ok none ∧
    mainGate staged contents oracle false pd = Except.ok GateOutcome.covUnavailable ∧
    exitCode GateOutcome.covUnavailable = 1 := by
  have hcov := run_coverage_unavailable oracle _ hnoerr hsome
  refine ⟨hcov, ?_, rfl⟩
  rw [mainGate_run staged contents oracle pd hb hne hts, hcov]

/-- Witness for C7 at a concrete staged file and package oracle. -/
theorem C7_witness :
    run_coverage (fun _ _ => Except.ok none) (get_testable_files (["apps/web/src/a.ts"]))
      = Except.ok none ∧
    mainGate (["apps/web/src/a.ts"]) (fun _ => none) (fun _ _ => Except.ok none) false ("/r")
      = Except.ok GateOutcome.covUnavailable := by
  have h := C7_unavailable_fail_closed (["apps/web/src/a.ts"]) (fun _ => none)
    (fun _ _ => Except.ok none) ("/r") rfl (by simp) (by decide)
    (fun g hg => by simp) ⟨("apps/web", ["src/a.ts"]), by decide, rfl⟩
  exact ⟨h.1, h.2.1⟩

/-- C8: with no staged files main returns success at once (for any
filesystem and any runner behaviour); any barrel found makes main return
failure with the full barrel list before coverage is consulted; in
barrel-only mode with no barrels main returns success without consulting
the coverage runner. -/
theorem C8_orchestrator_short_circuit :
    (∀ (contents : String → Option String)
        (oracle : String → List String → Except Unit (Option CovMap)) (skip : Bool) (pd : String),
      mainGate [] contents oracle skip pd = Except.ok GateOutcome.noStaged ∧
      exitCode GateOutcome.noStaged = 0) ∧
    (∀ (staged : List String) (contents : String → Option String)
        (oracle : String → List String → Except Unit (Option CovMap)) (skip : Bool) (pd : String),
      check_barrels staged contents pd ≠ [] →
      mainGate staged contents oracle skip pd
        = Except.ok (GateOutcome.barrelsFound (check_barrels staged contents pd)) ∧
      (∀ f ∈ staged, ∀ c, contents (joinPath pd f) = some c → is_barrel c = true →
        f ∈ check_barrels staged contents pd) ∧
      exitCode (GateOutcome.barrelsFound (check_barrels staged contents pd)) = 1) ∧
    (∀ (staged : List String) (contents : String → Option String)
        (oracle oracle2 : String → List String → Except Unit (Option CovMap)) (pd : String),
      staged ≠ [] → check_barrels staged contents pd = [] →
      mainGate staged contents oracle true pd = Except.ok GateOutcome.barrelOnlyPass ∧
      mainGate staged contents oracle true pd = mainGate staged contents oracle2 true pd ∧
      exitCode GateOutcome.barrelOnlyPass = 0) := by
  refine ⟨?_, ?_, ?_⟩
  · intro contents oracle skip pd
    exact ⟨rfl, rfl⟩
  · intro staged contents oracle skip pd hbne
    have h1 : staged.isEmpty = false := by
      cases staged
      · exact absurd rfl hbne
      · rfl
    refine ⟨?_, ?_, rfl⟩
    · have h2 : (check_barrels staged contents pd).isEmpty = false := by
        cases h : check_barrels staged contents pd
        · exact absurd h hbne
        · rfl
      simp only [mainGate, h1, h2]
      simp
    · intro f hf c hc hbarrel
      rw [check_barrels]
      exact List.mem_filterMap.mpr ⟨f, hf, by simp [hc, hbarrel]⟩
  · intro staged contents oracle oracle2 pd hne hb
    have h1 : staged.isEmpty = false := by
      cases staged
      · exact absurd rfl hne
      · rfl
    have key : ∀ o : String → List String → Except Unit (Option CovMap),
        mainGate staged contents o true pd = Except.ok GateOutcome.barrelOnlyPass := by
      intro o
      simp only [mainGate, h1, hb]
      simp
    exact ⟨key oracle, by rw [key oracle, key oracle2], rfl⟩

/-- Witness for C8 at concrete inputs for each short-circuit. -/
theorem C8_witness :
    mainGate [] (fun _ => none) (fun _ _ => Except.ok none) false ("/r")
      = Except.ok GateOutcome.noStaged ∧
    mainGate (["a.ts"]) (fun _ => some ("export * from \"./x\";")) (fun _ _ => Except.ok none)
      false ("/r")
      = Except.ok (GateOutcome.barrelsFound (check_barrels (["a.ts"])
          (fun _ => some ("export * from \"./x\";")) ("/r"))) ∧
    mainGate (["a.ts"]) (fun _ => some ("const x = 1;")) (fun _ _ => Except.ok none) true ("/r")
      = Except.ok GateOutcome.barrelOnlyPass := by
  refine ⟨(C8_orchestrator_short_circuit.1 (fun _ => none) (fun _ _ => Except.ok none)
      false ("/r")).1, ?_, ?_⟩
  · exact ((C8_orchestrator_short_circuit.2.1 (["a.ts"])
      (fun _ => some ("export * from \"./x\";")) (fun _ _ => Except.ok none) false ("/r"))
      (by decide)).1
  · exact ((C8_orchestrator_short_circuit.2.2 (["a.ts"]) (fun _ => some ("const x = 1;"))
      (fun _ _ => Except.ok none) (fun _ _ => Except.ok none) ("/r")) (by simp) (by decide)).1

/-- A file matching no routing prefix contributes nothing to the
package groups, wherever it sits in the list. -/
theorem group_skips_unrouted (f : String) (hroute : findRoute f = none) :
    ∀ l1 l2 : List String,
      group_files_by_package (l1 ++ f :: l2) = group_files_by_package (l1 ++ l2) := by
  intro l1 l2
  rw [group_files_by_package, group_files_by_package, List.foldl_append, List.foldl_append,
    List.foldl_cons]
  congr 1
  simp [hroute]

/-- Counterexample for C1: one staged, testable file matching no routing
prefix; the gate records it as a 0-percent threshold failure and exits 1,
so such a file can fail the gate. -/
theorem C1_counterexample :
    findRoute ("foo/bar.ts") = none ∧
    mainGate (["foo/bar.ts"]) (fun _ => some ("const x = 1;")) (fun _ _ => Except.ok none)
      false ("/repo")
      = Except.ok (GateOutcome.thresholdFail [⟨"foo/bar.ts", 0, 0, false, false⟩]) ∧
    exitCode (GateOutcome.thresholdFail [⟨"foo/bar.ts", 0, 0, false, false⟩]) = 1 :=
  ⟨rfl, rfl, rfl⟩

/-- C1 (amended): a staged testable file matching no routing prefix is
excluded from every package's coverage run (it contributes to no group),
but it is not excluded from the threshold check: it stays in the
testable list, its path is then absent from the merged coverage map, and
it is recorded as a failure with 0 percent lines and branches, so its
presence alone causes exit code 1. -/
theorem C1_amended (f pd : String) (contents : String → Option String)
    (oracle : String → List String → Except Unit (Option CovMap)) (c : String)
    (hroute : findRoute f = none) (hts : strEnds f (".ts") = true)
    (hexcl : is_excluded f = false) (hc : contents (joinPath pd f) = some c)
    (hbar : is_barrel c = false) :
    (∀ l1 l2 : List String,
      group_files_by_package (l1 ++ f :: l2) = group_files_by_package (l1 ++ l2)) ∧
    mainGate [f] contents oracle false pd
      = Except.ok (GateOutcome.thresholdFail [⟨f, 0, 0, false, false⟩]) ∧
    exitCode (GateOutcome.thresholdFail [⟨f, 0, 0, false, false⟩]) = 1 := by
  refine ⟨group_skips_unrouted f hroute, ?_, rfl⟩
  have hbarrels : check_barrels [f] contents pd = [] := by
    simp [check_barrels, hc, hbar]
  have htest : get_testable_files [f] = [f] := by
    simp [get_testable_files, hts, hexcl]
  have hne : ([f] : List String) ≠ [] := by simp
  have htsne : get_testable_files [f] ≠ [] := by
    rw [htest]
    simp
  have hgroups : group_files_by_package (get_testable_files [f]) = [] := by
    rw [htest]
    simpa using group_skips_unrouted f hroute [] []
  have hcov : run_coverage oracle (get_testable_files [f]) = Except.ok (some (fun _ => none)) := by
    simp only [run_coverage, hgroups]
    rfl
  have hcc : check_coverage (fun _ => none) (get_testable_files [f]) pd
      = [⟨f, 0, 0, false, false⟩] := by
    rw [htest]
    simp only [check_coverage, List.filterMap_cons, List.filterMap_nil,
      @fileFailure_none (fun _ => none) pd f rfl]
  rw [mainGate_run [f] contents oracle pd hbarrels hne htsne, hcov]
  simp [hcc]

/-- Witness for the amended C1 at a concrete unrouted file. -/
theorem C1_witness :
    (∀ l1 l2 : List String,
      group_files_by_package (l1 ++ ("foo/bar.ts") :: l2) = group_files_by_package (l1 ++ l2)) ∧
    mainGate (["foo/bar.ts"]) (fun _ => some ("const x = 1;")) (fun _ _ => Except.ok none)
      false ("/repo")
      = Except.ok (GateOutcome.thresholdFail [⟨"foo/bar.ts", 0, 0, false, false⟩]) := by
  have h := C1_amended ("foo/bar.ts") ("/repo") (fun _ => some ("const x = 1;"))
    (fun _ _ => Except.ok none) ("const x = 1;") rfl (by decide) (by decide) rfl (by decide)
  exact ⟨h.1, h.2.1⟩

/-- C2 (amended): only the fallback full-suite invocations carry a
timeout (120 seconds); the initial related-tests invocation has none, so
it returns normally after an arbitrarily long run; and a fallback
timeout is not converted into the artifact-not-produced path — the
subprocess.TimeoutExpired exception (the error result) aborts the retry
loop and propagates uncaught through run_coverage and main. -/
theorem C2_amended {α : Type} (related : ProcBehavior α) (fb : Nat → ProcBehavior α) :
    (∀ (d : ℕ) (c : α) (fb2 : Nat → ProcBehavior α),
      run_coverage_for_package ⟨d, some c⟩ fb2 = Except.ok (some c)) ∧
    (related.produces = none → 120 < (fb 1).duration →
      run_coverage_for_package related fb = Except.error ()) ∧
    (∀ (staged : List String) (contents : String → Option String) (pd pkg : String)
        (fs : List String) (rest : List (String × List String))
        (related2 : ProcBehavior CovMap) (fb2 : Nat → ProcBehavior CovMap),
      check_barrels staged contents pd = [] → staged ≠ [] →
      group_files_by_package (get_testable_files staged) = (pkg, fs) :: rest →
      related2.produces = none → 120 < (fb2 1).duration →
      mainGate staged contents (fun _ _ => run_coverage_for_package related2 fb2) false pd
        = Except.error ()) := by
  have key : ∀ {β : Type} (r : ProcBehavior β) (g : Nat → ProcBehavior β),
      r.produces = none → 120 < (g 1).duration →
      run_coverage_for_package r g = Except.error () := by
    intro β r g hrel hdur
    rw [rcp_related_none g hrel]
    rw [show (List.range' 1 MAX_RETRIES).map g = [g 1, g 2, g 3, g 4, g 5] from rfl]
    exact attemptFold_cons_timeout _ hdur
  refine ⟨?_, key related fb, ?_⟩
  · intro d c fb2
    exact rcp_related_some fb2 rfl
  · intro staged contents pd pkg fs rest related2 fb2 hb hne hg hrel hdur
    have htsne : get_testable_files staged ≠ [] := by
      intro h
      rw [h] at hg
      exact absurd hg (by simp [group_files_by_package])
    have herr : run_coverage (fun _ _ => run_coverage_for_package related2 fb2)
        (get_testable_files staged) = Except.error () := by
      apply run_coverage_error_head _ _ pkg fs rest hg
      exact key related2 fb2 hrel hdur
    rw [mainGate_run staged contents _ pd hb hne htsne, herr]

/-- Witness for the amended C2: a long related run still succeeds, a
timed-out first fallback aborts with the exception, and the exception
escapes main. -/
theorem C2_witness :
    run_coverage_for_package (α := ℕ) ⟨3, some 5⟩ (fun _ => ⟨0, none⟩) = Except.ok (some 5) ∧
    run_coverage_for_package (α := ℕ) ⟨0, none⟩ (fun _ => ⟨121, none⟩) = Except.error () ∧
    mainGate (["apps/web/src/a.ts"]) (fun _ => none)
      (fun _ _ => run_coverage_for_package (⟨0, none⟩ : ProcBehavior CovMap)
        (fun _ => ⟨121, none⟩))
      false ("/r") = Except.error () := by
  refine ⟨(C2_amended (α := ℕ) ⟨0, none⟩ (fun _ => ⟨0, none⟩)).1 3 5 (fun _ => ⟨0, none⟩),
    (C2_amended (α := ℕ) ⟨0, none⟩ (fun _ => ⟨121, none⟩)).2.1 rfl (by decide), ?_⟩
  exact (C2_amended (α := ℕ) ⟨0, none⟩ (fun _ => ⟨0, none⟩)).2.2 (["apps/web/src/a.ts"])
    (fun _ => none) ("/r") ("apps/web") (["src/a.ts"]) [] ⟨0, none⟩ (fun _ => ⟨121, none⟩)
    rfl (by simp) (by decide) rfl (by decide)
